import Mathlib

/-!
Shallow embedding of `src/sourmash/sketchcomparison.py` (sketch comparison
classes) together with a model of the MinHash sketch-engine collaborator.

The comparison layer (`downsample_and_handle_ignore_abundance`,
`check_compatibility_and_downsample`, `NumMinHashComparison`,
`FracMinHashComparison` and their derived properties) is translated directly
from the source file.  The MinHash engine itself (`flatten`, `downsample`,
`intersection`, `jaccard`, `contained_by`, abundance handling, ...) lives
outside the given sources and is modelled from the spec contract (spec §6).

Python exceptions are modelled with `Except CmpError`; a hash set with
optional abundances is modelled as an association list of
(hash value, abundance) pairs, mirroring a Python dict in insertion order.
-/

/-- Error kinds raised by the comparison code: `valueError` and `typeError`
mirror the Python `ValueError` / `TypeError` raised in the source, carrying
the source message; `unsupported` models the usage error raised by the
sketch engine when angular similarity is requested without abundances. -/
inductive CmpError where
  | valueError (msg : String)
  | typeError (msg : String)
  | unsupported (msg : String)
deriving DecidableEq, Repr

/-- Modelled from the spec: the external Sketch entity (spec §3).  `num` is
the fixed-size sample count and `scaled` the fixed-rate subsampling rate;
as in the source engine, the value 0 means "this selector is not in use"
(Python falsiness), so a fixed-size sketch has `scaled = 0` and a fixed-rate
sketch has `num = 0`.  `hashes` is the hash-to-abundance mapping (a Python
dict in insertion order); abundances are meaningful only when
`track_abundance` is set. -/
structure MinHash where
  num : Nat
  scaled : Nat
  ksize : Nat
  moltype : String
  track_abundance : Bool
  hashes : List (Nat × Nat)
deriving DecidableEq, Repr

/-- First value bound to key `k` in an association list, or `d` when the key
is absent; models Python `dict.get(k, d)`. -/
def lookupD (l : List (Nat × Nat)) (k : Nat) (d : Nat) : Nat :=
  match l with
  | [] => d
  | p :: t => if p.1 == k then p.2 else lookupD t k d

/-- Hash values present in a sketch (the dict keys). -/
def MinHash.keys (mh : MinHash) : List Nat :=
  mh.hashes.map Prod.fst

/-- Modelled from the spec: `flatten() → Sketch` (abundance stripped,
structural copy); a sketch that does not track abundance is returned
unchanged, otherwise all abundances become 1 and tracking is switched off. -/
def MinHash.flatten (mh : MinHash) : MinHash :=
  if mh.track_abundance then
    { mh with track_abundance := false, hashes := mh.hashes.map (fun p => (p.1, 1)) }
  else mh

/-- Modelled from the spec: the largest hash value retained at a given
subsampling rate (hash space of width 2^64 divided by the rate). -/
def maxHashForScaled (s : Nat) : Nat :=
  2 ^ 64 / s

/-- Modelled from the spec: `downsample(rate) → Sketch`, coarsening-only;
fails on a fixed-size sketch or when the requested rate is finer (smaller)
than the sketch resolution, otherwise keeps the hashes below the new
rate threshold. -/
def MinHash.downsampleScaled (mh : MinHash) (s : Nat) : Except CmpError MinHash :=
  if mh.num != 0 then
    .error (.valueError "Error: cannot downsample a num MinHash using scaled value.")
  else if s < mh.scaled then
    .error (.valueError "Error: cannot upsample a scaled MinHash.")
  else
    .ok { mh with scaled := s, hashes := mh.hashes.filter (fun p => p.1 < maxHashForScaled s) }

/-- Insert a (hash, abundance) pair into a list sorted by hash value. -/
def insertByKey (p : Nat × Nat) : List (Nat × Nat) → List (Nat × Nat)
  | [] => [p]
  | q :: t => if p.1 ≤ q.1 then p :: q :: t else q :: insertByKey p t

/-- Sort a hash list by hash value (insertion sort). -/
def sortByKey : List (Nat × Nat) → List (Nat × Nat)
  | [] => []
  | p :: t => insertByKey p (sortByKey t)

/-- Modelled from the spec: `downsample(sample_count) → Sketch`,
coarsening-only; fails on a fixed-rate sketch or when the requested count
exceeds the sketch sample count, otherwise keeps the smallest `n` hashes. -/
def MinHash.downsampleNum (mh : MinHash) (n : Nat) : Except CmpError MinHash :=
  if mh.scaled != 0 then
    .error (.valueError "Error: cannot downsample a scaled MinHash using num value.")
  else if mh.num < n then
    .error (.valueError "Error: new sample count is higher than current sample count.")
  else
    .ok { mh with num := n, hashes := (sortByKey mh.hashes).take n }

/-- Modelled from the spec: `is_compatible(other)` checks k-mer size,
molecule type and rate resolution (per the source comment, the sample
count is not checked). -/
def MinHash.is_compatible (a b : MinHash) : Bool :=
  a.ksize == b.ksize && a.moltype == b.moltype && a.scaled == b.scaled

/-- Modelled from the spec: `intersection(other) → Sketch` keeps the hashes
common to both sketches (metadata taken from the left operand). -/
def MinHash.intersection (a b : MinHash) : MinHash :=
  { a with hashes := a.hashes.filter (fun p => b.keys.contains p.1) }

/-- Modelled from the spec: `copy_and_clear() → Sketch`, a structural copy
with no hashes. -/
def MinHash.copy_and_clear (mh : MinHash) : MinHash :=
  { mh with hashes := [] }

/-- Modelled from the spec: `set_abundances(mapping)` replaces the
hash-to-abundance mapping. -/
def MinHash.set_abundances (mh : MinHash) (vals : List (Nat × Nat)) : MinHash :=
  { mh with hashes := vals }

/-- Modelled from the spec: Jaccard index between the two hash sets,
computed as |A ∩ B| / |A ∪ B| (0 when both sets are empty). -/
def MinHash.jaccard (a b : MinHash) : Rat :=
  let i := (a.hashes.filter (fun p => b.keys.contains p.1)).length
  let u := a.hashes.length + (b.hashes.filter (fun p => !(a.keys.contains p.1))).length
  if u = 0 then 0 else (i : Rat) / (u : Rat)

/-- Modelled from the spec: `contained_by(other)`, the fraction of this
sketch contained in the other (0 for an empty sketch). -/
def MinHash.contained_by (a b : MinHash) : Rat :=
  if a.hashes.length = 0 then 0
  else ((a.hashes.filter (fun p => b.keys.contains p.1)).length : Rat) / (a.hashes.length : Rat)

/-- Modelled from the spec: `max_containment(other)`, the larger of the two
directional containments. -/
def MinHash.max_containment (a b : MinHash) : Rat :=
  max (a.contained_by b) (b.contained_by a)

/-- Modelled from the spec: an ANI estimate, a point estimate plus optional
confidence-interval bounds. -/
structure ANIResult where
  ani : Rat
  ani_low : Option Rat
  ani_high : Option Rat
deriving DecidableEq, Repr

/-- Modelled from the spec: `jaccard_ani(other) → ANIEstimate`; the ANI
internals are out of scope (spec §1), so the point estimate is modelled as
an executable function of the Jaccard index. -/
def MinHash.jaccard_ani (a b : MinHash) : ANIResult :=
  { ani := a.jaccard b, ani_low := none, ani_high := none }

/-- Modelled from the spec: `containment_ani(other, confidence, estimate_ci)
→ ANIEstimate`; the ANI internals are out of scope, so the point estimate is
modelled as an executable function of the containment, with CI bounds
present exactly when a CI is requested. -/
def MinHash.containment_ani (a b : MinHash) (confidence : Rat) (estimate_ci : Bool) : ANIResult :=
  let c := a.contained_by b
  { ani := c
    ani_low := if estimate_ci then some (c * confidence) else none
    ani_high := if estimate_ci then some c else none }

/-- Modelled from the spec: `max_containment_ani(other, confidence,
estimate_ci) → ANIEstimate`, built on the max containment. -/
def MinHash.max_containment_ani (a b : MinHash) (confidence : Rat) (estimate_ci : Bool) : ANIResult :=
  let c := a.max_containment b
  { ani := c
    ani_low := if estimate_ci then some (c * confidence) else none
    ani_high := if estimate_ci then some c else none }

/-- Modelled from the spec: abundance dot product used by the angular
similarity (its numeric value is out of scope; only the failure condition
matters to this core). -/
def abundDot (a b : List (Nat × Nat)) : Nat :=
  (a.map (fun p => p.2 * lookupD b p.1 0)).sum

/-- Modelled from the spec: `angular_similarity(other)` fails with a usage
error when either sketch lacks abundance tracking. -/
def MinHash.angular_similarity (a b : MinHash) : Except CmpError Rat :=
  if a.track_abundance && b.track_abundance then
    .ok ((abundDot a.hashes b.hashes : Nat) : Rat)
  else
    .error (.unsupported "Error: Angular (cosine) similarity requires both sketches to track hash abundance.")

/-- Mean of a list of rationals, modelling `numpy.mean`. -/
def npMean (l : List Rat) : Rat :=
  l.sum / (l.length : Rat)

/-- `BaseMinHashComparison.downsample_and_handle_ignore_abundance` from the
source: flatten both sketches when `ignore_abundance` is set, then
downsample both by `cmp_scaled` if given, else by `cmp_num` if given, else
raise `ValueError`. -/
def downsample_and_handle_ignore_abundance (mh1 mh2 : MinHash) (ignore_abundance : Bool)
    (cmp_num cmp_scaled : Option Nat) : Except CmpError (MinHash × MinHash) :=
  match cmp_scaled with
  | some s =>
    match (if ignore_abundance then mh1.flatten else mh1).downsampleScaled s with
    | .error e => .error e
    | .ok c1 =>
      match (if ignore_abundance then mh2.flatten else mh2).downsampleScaled s with
      | .error e => .error e
      | .ok c2 => .ok (c1, c2)
  | none =>
    match cmp_num with
    | some n =>
      match (if ignore_abundance then mh1.flatten else mh1).downsampleNum n with
      | .error e => .error e
      | .ok c1 =>
        match (if ignore_abundance then mh2.flatten else mh2).downsampleNum n with
        | .error e => .error e
        | .ok c2 => .ok (c1, c2)
    | none => .error (.valueError "Error: must pass in a comparison scaled or num value.")

/-- `BaseMinHashComparison.check_compatibility_and_downsample` from the
source: reject a mixed fixed-size / fixed-rate pair, then downsample, then
check post-downsampling compatibility, then expose `ksize` and `moltype`
from sketch 1. -/
def check_compatibility_and_downsample (mh1 mh2 : MinHash) (ignore_abundance : Bool)
    (cmp_num cmp_scaled : Option Nat) : Except CmpError (MinHash × MinHash × Nat × String) :=
  if (mh1.num != 0 && mh2.num != 0) || (mh1.scaled != 0 && mh2.scaled != 0) then
    match downsample_and_handle_ignore_abundance mh1 mh2 ignore_abundance cmp_num cmp_scaled with
    | .error e => .error e
    | .ok (c1, c2) =>
      if c1.is_compatible c2 then
        .ok (c1, c2, mh1.ksize, mh1.moltype)
      else
        .error (.typeError "Error: Cannot compare incompatible sketches.")
  else
    .error (.typeError "Error: Both sketches must be num or scaled.")

/-- A successfully constructed `NumMinHashComparison` from the source: the
originals, the policy flag, the resolved sample count, the two normalized
sketches, and the identity fields copied from sketch 1. -/
structure NumMinHashComparison where
  mh1 : MinHash
  mh2 : MinHash
  ignore_abundance : Bool
  cmp_num : Nat
  mh1_cmp : MinHash
  mh2_cmp : MinHash
  ksize : Nat
  moltype : String
deriving DecidableEq, Repr

/-- `NumMinHashComparison.__post_init__` from the source: default the
comparison sample count to `min(mh1.num, mh2.num)`, then run
`check_compatibility_and_downsample`. -/
def NumMinHashComparison.build (mh1 mh2 : MinHash) (ignore_abundance : Bool)
    (cmp_num : Option Nat) : Except CmpError NumMinHashComparison :=
  match check_compatibility_and_downsample mh1 mh2 ignore_abundance
      (some (cmp_num.getD (min mh1.num mh2.num))) none with
  | .error e => .error e
  | .ok (c1, c2, k, m) =>
    .ok ⟨mh1, mh2, ignore_abundance, cmp_num.getD (min mh1.num mh2.num), c1, c2, k, m⟩

/-- `BaseMinHashComparison.intersect_mh` on the fixed-size variant. -/
def NumMinHashComparison.intersect_mh (c : NumMinHashComparison) : MinHash :=
  c.mh1_cmp.flatten.intersection c.mh2_cmp.flatten

/-- `BaseMinHashComparison.jaccard` on the fixed-size variant. -/
def NumMinHashComparison.jaccard (c : NumMinHashComparison) : Rat :=
  c.mh1_cmp.jaccard c.mh2_cmp

/-- `BaseMinHashComparison.jaccard_ani` on the fixed-size variant. -/
def NumMinHashComparison.jaccard_ani (c : NumMinHashComparison) : ANIResult :=
  c.mh1_cmp.jaccard_ani c.mh2_cmp

/-- `BaseMinHashComparison.angular_similarity` on the fixed-size variant. -/
def NumMinHashComparison.angular_similarity (c : NumMinHashComparison) : Except CmpError Rat :=
  c.mh1_cmp.angular_similarity c.mh2_cmp

/-- `BaseMinHashComparison.cosine_similarity` on the fixed-size variant. -/
def NumMinHashComparison.cosine_similarity (c : NumMinHashComparison) : Except CmpError Rat :=
  c.angular_similarity

/-- A successfully constructed `FracMinHashComparison` from the source. -/
structure FracMinHashComparison where
  mh1 : MinHash
  mh2 : MinHash
  ignore_abundance : Bool
  cmp_scaled : Nat
  threshold_bp : Nat
  estimate_ani_ci : Bool
  ani_confidence : Rat
  mh1_cmp : MinHash
  mh2_cmp : MinHash
  ksize : Nat
  moltype : String
deriving DecidableEq, Repr

/-- `FracMinHashComparison.__post_init__` from the source: default the
comparison rate to `max(mh1.scaled, mh2.scaled)`, then run
`check_compatibility_and_downsample`. -/
def FracMinHashComparison.build (mh1 mh2 : MinHash) (ignore_abundance : Bool)
    (cmp_scaled : Option Nat) (threshold_bp : Nat) (estimate_ani_ci : Bool)
    (ani_confidence : Rat) : Except CmpError FracMinHashComparison :=
  match check_compatibility_and_downsample mh1 mh2 ignore_abundance none
      (some (cmp_scaled.getD (max mh1.scaled mh2.scaled))) with
  | .error e => .error e
  | .ok (c1, c2, k, m) =>
    .ok ⟨mh1, mh2, ignore_abundance, cmp_scaled.getD (max mh1.scaled mh2.scaled),
         threshold_bp, estimate_ani_ci, ani_confidence, c1, c2, k, m⟩

/-- `BaseMinHashComparison.intersect_mh` on the fixed-rate variant. -/
def FracMinHashComparison.intersect_mh (c : FracMinHashComparison) : MinHash :=
  c.mh1_cmp.flatten.intersection c.mh2_cmp.flatten

/-- `BaseMinHashComparison.jaccard` on the fixed-rate variant. -/
def FracMinHashComparison.jaccard (c : FracMinHashComparison) : Rat :=
  c.mh1_cmp.jaccard c.mh2_cmp

/-- `BaseMinHashComparison.jaccard_ani` on the fixed-rate variant. -/
def FracMinHashComparison.jaccard_ani (c : FracMinHashComparison) : ANIResult :=
  c.mh1_cmp.jaccard_ani c.mh2_cmp

/-- `BaseMinHashComparison.angular_similarity` on the fixed-rate variant. -/
def FracMinHashComparison.angular_similarity (c : FracMinHashComparison) : Except CmpError Rat :=
  c.mh1_cmp.angular_similarity c.mh2_cmp

/-- `BaseMinHashComparison.cosine_similarity` on the fixed-rate variant. -/
def FracMinHashComparison.cosine_similarity (c : FracMinHashComparison) : Except CmpError Rat :=
  c.angular_similarity

/-- `FracMinHashComparison.intersect_bp` from the source:
`len(intersect_mh) * cmp_scaled`. -/
def FracMinHashComparison.intersect_bp (c : FracMinHashComparison) : Nat :=
  c.intersect_mh.hashes.length * c.cmp_scaled

/-- `FracMinHashComparison.pass_threshold` from the source:
`intersect_bp >= threshold_bp`. -/
def FracMinHashComparison.pass_threshold (c : FracMinHashComparison) : Bool :=
  decide (c.threshold_bp ≤ c.intersect_bp)

/-- `FracMinHashComparison.mh1_containment` from the source. -/
def FracMinHashComparison.mh1_containment (c : FracMinHashComparison) : Rat :=
  c.mh1_cmp.contained_by c.mh2_cmp

/-- `FracMinHashComparison.mh1_containment_ani` from the source. -/
def FracMinHashComparison.mh1_containment_ani (c : FracMinHashComparison) : ANIResult :=
  c.mh1_cmp.containment_ani c.mh2_cmp c.ani_confidence c.estimate_ani_ci

/-- `FracMinHashComparison.mh2_containment` from the source. -/
def FracMinHashComparison.mh2_containment (c : FracMinHashComparison) : Rat :=
  c.mh2_cmp.contained_by c.mh1_cmp

/-- `FracMinHashComparison.mh2_containment_ani` from the source. -/
def FracMinHashComparison.mh2_containment_ani (c : FracMinHashComparison) : ANIResult :=
  c.mh2_cmp.containment_ani c.mh1_cmp c.ani_confidence c.estimate_ani_ci

/-- `FracMinHashComparison.max_containment` from the source. -/
def FracMinHashComparison.max_containment (c : FracMinHashComparison) : Rat :=
  c.mh1_cmp.max_containment c.mh2_cmp

/-- `FracMinHashComparison.max_containment_ani` from the source. -/
def FracMinHashComparison.max_containment_ani (c : FracMinHashComparison) : ANIResult :=
  c.mh1_cmp.max_containment_ani c.mh2_cmp c.ani_confidence c.estimate_ani_ci

/-- `FracMinHashComparison.avg_containment` from the source:
`np.mean([mh1_containment, mh2_containment])`. -/
def FracMinHashComparison.avg_containment (c : FracMinHashComparison) : Rat :=
  npMean [c.mh1_containment, c.mh2_containment]

/-- `FracMinHashComparison.avg_containment_ani` from the source:
`np.mean([mh1_containment_ani.ani, mh2_containment_ani.ani])`. -/
def FracMinHashComparison.avg_containment_ani (c : FracMinHashComparison) : Rat :=
  npMean [c.mh1_containment_ani.ani, c.mh2_containment_ani.ani]

/-- The abundance mapping chosen by `weighted_intersection` in the source:
the source sketch mapping when one is given and tracks abundance
(`from_mh` takes precedence over `from_abundD`), else the explicit
mapping. -/
def chosenAbundD (from_mh : Option MinHash) (from_abundD : List (Nat × Nat)) :
    List (Nat × Nat) :=
  match from_mh with
  | some f => if f.track_abundance then f.hashes else from_abundD
  | none => from_abundD

/-- `FracMinHashComparison.weighted_intersection` from the source: an
abundance source sketch that tracks abundance replaces the explicit
mapping; a non-empty mapping (Python dict truthiness) yields an
abundance-tracking sketch over the intersection hashes with absent hashes
defaulted to 1; otherwise the plain intersection is returned. -/
def FracMinHashComparison.weighted_intersection (c : FracMinHashComparison)
    (from_mh : Option MinHash) (from_abundD : List (Nat × Nat)) : MinHash :=
  if (chosenAbundD from_mh from_abundD).isEmpty then
    c.intersect_mh
  else
    ({ c.intersect_mh.copy_and_clear with track_abundance := true }).set_abundances
      (c.intersect_mh.hashes.map
        (fun p : Nat × Nat => (p.1, lookupD (chosenAbundD from_mh from_abundD) p.1 1)))

/-- Example fixed-rate sketch: rate 10, k-mer size 21, no abundances. -/
def mhS10 : MinHash := ⟨0, 10, 21, "DNA", false, [(2, 1), (4, 1), (6, 1)]⟩

/-- Example fixed-rate sketch: rate 20, k-mer size 21, with abundances. -/
def mhS20 : MinHash := ⟨0, 20, 21, "DNA", true, [(2, 3), (6, 2)]⟩

/-- Example fixed-rate sketch with a different k-mer size (31). -/
def mhS10k31 : MinHash := ⟨0, 10, 31, "DNA", false, [(2, 1)]⟩

/-- Example fixed-size sketch: sample count 500. -/
def mhN500 : MinHash := ⟨500, 0, 21, "DNA", false, [(1, 1), (2, 1)]⟩

/-- Example fixed-size sketch: sample count 1000, with abundances. -/
def mhN1000 : MinHash := ⟨1000, 0, 21, "DNA", true, [(2, 4), (3, 1)]⟩

/-- Example abundance-tracking sketch with an empty hash set. -/
def emptyAbundMh : MinHash := ⟨0, 20, 21, "DNA", true, []⟩

/-- Fallback comparison value used only to extract states from `Except`. -/
def fracFallback : FracMinHashComparison :=
  ⟨mhS10, mhS20, false, 0, 0, false, 0, mhS10, mhS20, 0, ""⟩

/-- Concrete fixed-rate comparison state: `mhS10` vs `mhS20`, abundances
kept, default resolution. -/
def fracSt : FracMinHashComparison :=
  ((FracMinHashComparison.build mhS10 mhS20 false none 0 false 1).toOption).getD fracFallback

/-- Concrete fixed-rate comparison state with `ignore_abundance = true`. -/
def fracStI : FracMinHashComparison :=
  ((FracMinHashComparison.build mhS10 mhS20 true none 0 false 1).toOption).getD fracFallback

/-- Fallback fixed-size comparison value. -/
def numFallback : NumMinHashComparison :=
  ⟨mhN500, mhN1000, false, 0, mhN500, mhN1000, 0, ""⟩

/-- Concrete fixed-size comparison state with `ignore_abundance = true`. -/
def numStI : NumMinHashComparison :=
  ((NumMinHashComparison.build mhN500 mhN1000 true none).toOption).getD numFallback

/-- Concrete fixed-size comparison state with `ignore_abundance = false`. -/
def numSt : NumMinHashComparison :=
  ((NumMinHashComparison.build mhN500 mhN1000 false none).toOption).getD numFallback

/-- Concrete fixed-rate comparison state with a threshold too large to
ever pass (1000 bp against a 40 bp intersection). -/
def fracStT : FracMinHashComparison :=
  ((FracMinHashComparison.build mhS10 mhS20 false none 1000 false 1).toOption).getD fracFallback

/-! Helper lemmas shared by the claim theorems. -/

lemma flatten_track (mh : MinHash) : mh.flatten.track_abundance = false := by
  unfold MinHash.flatten
  split
  · rfl
  · simp_all

lemma flatten_keys (mh : MinHash) : mh.flatten.keys = mh.keys := by
  unfold MinHash.flatten MinHash.keys
  split
  · simp
  · rfl

lemma flatten_hashes_length (mh : MinHash) : mh.flatten.hashes.length = mh.hashes.length := by
  unfold MinHash.flatten
  split
  · simp
  · rfl

lemma downsampleScaled_ok_track {mh r : MinHash} {s : Nat}
    (h : mh.downsampleScaled s = .ok r) : r.track_abundance = mh.track_abundance := by
  unfold MinHash.downsampleScaled at h
  split at h
  · simp at h
  · split at h
    · simp at h
    · simp only [Except.ok.injEq] at h
      subst h
      rfl

lemma downsampleNum_ok_track {mh r : MinHash} {n : Nat}
    (h : mh.downsampleNum n = .ok r) : r.track_abundance = mh.track_abundance := by
  unfold MinHash.downsampleNum at h
  split at h
  · simp at h
  · split at h
    · simp at h
    · simp only [Except.ok.injEq] at h
      subst h
      rfl

lemma dsh_scaled_ok {mh1 mh2 : MinHash} {ia : Bool} {s : Nat} {c1 c2 : MinHash}
    (h : downsample_and_handle_ignore_abundance mh1 mh2 ia none (some s) = .ok (c1, c2)) :
    (if ia then mh1.flatten else mh1).downsampleScaled s = .ok c1 ∧
    (if ia then mh2.flatten else mh2).downsampleScaled s = .ok c2 := by
  replace h : (match (if ia then mh1.flatten else mh1).downsampleScaled s with
    | Except.error e => (Except.error e : Except CmpError (MinHash × MinHash))
    | Except.ok d1 =>
      match (if ia then mh2.flatten else mh2).downsampleScaled s with
      | Except.error e => Except.error e
      | Except.ok d2 => Except.ok (d1, d2)) = Except.ok (c1, c2) := h
  split at h
  · simp at h
  · rename_i d1 h1
    split at h
    · simp at h
    · rename_i d2 h2
      simp only [Except.ok.injEq, Prod.mk.injEq] at h
      constructor
      · rw [← h.1]; exact h1
      · rw [← h.2]; exact h2

lemma dsh_num_ok {mh1 mh2 : MinHash} {ia : Bool} {n : Nat} {c1 c2 : MinHash}
    (h : downsample_and_handle_ignore_abundance mh1 mh2 ia (some n) none = .ok (c1, c2)) :
    (if ia then mh1.flatten else mh1).downsampleNum n = .ok c1 ∧
    (if ia then mh2.flatten else mh2).downsampleNum n = .ok c2 := by
  replace h : (match (if ia then mh1.flatten else mh1).downsampleNum n with
    | Except.error e => (Except.error e : Except CmpError (MinHash × MinHash))
    | Except.ok d1 =>
      match (if ia then mh2.flatten else mh2).downsampleNum n with
      | Except.error e => Except.error e
      | Except.ok d2 => Except.ok (d1, d2)) = Except.ok (c1, c2) := h
  split at h
  · simp at h
  · rename_i d1 h1
    split at h
    · simp at h
    · rename_i d2 h2
      simp only [Except.ok.injEq, Prod.mk.injEq] at h
      constructor
      · rw [← h.1]; exact h1
      · rw [← h.2]; exact h2

lemma check_ok {mh1 mh2 : MinHash} {ia : Bool} {cn cs : Option Nat} {c1 c2 : MinHash}
    {k : Nat} {m : String}
    (h : check_compatibility_and_downsample mh1 mh2 ia cn cs = .ok (c1, c2, k, m)) :
    downsample_and_handle_ignore_abundance mh1 mh2 ia cn cs = .ok (c1, c2) ∧
    c1.is_compatible c2 = true ∧ k = mh1.ksize ∧ m = mh1.moltype := by
  unfold check_compatibility_and_downsample at h
  split at h
  · split at h
    · simp at h
    · rename_i d1 d2 hd
      split at h
      · rename_i hcompat
        simp only [Except.ok.injEq, Prod.mk.injEq] at h
        obtain ⟨h1, h2, h3, h4⟩ := h
        subst h1; subst h2; subst h3; subst h4
        exact ⟨hd, hcompat, rfl, rfl⟩
      · simp at h
  · simp at h

lemma numBuild_ok {mh1 mh2 : MinHash} {ia : Bool} {cn : Option Nat} {st : NumMinHashComparison}
    (h : NumMinHashComparison.build mh1 mh2 ia cn = .ok st) :
    st.mh1 = mh1 ∧ st.mh2 = mh2 ∧ st.ignore_abundance = ia ∧
    st.cmp_num = cn.getD (min mh1.num mh2.num) ∧
    check_compatibility_and_downsample mh1 mh2 ia (some (cn.getD (min mh1.num mh2.num))) none =
      .ok (st.mh1_cmp, st.mh2_cmp, st.ksize, st.moltype) := by
  unfold NumMinHashComparison.build at h
  split at h
  · simp at h
  · rename_i d1 d2 k m hc
    simp only [Except.ok.injEq] at h
    subst h
    exact ⟨rfl, rfl, rfl, rfl, hc⟩

lemma fracBuild_ok {mh1 mh2 : MinHash} {ia : Bool} {cs : Option Nat} {tb : Nat} {ci : Bool}
    {conf : Rat} {st : FracMinHashComparison}
    (h : FracMinHashComparison.build mh1 mh2 ia cs tb ci conf = .ok st) :
    st.mh1 = mh1 ∧ st.mh2 = mh2 ∧ st.ignore_abundance = ia ∧
    st.cmp_scaled = cs.getD (max mh1.scaled mh2.scaled) ∧
    st.threshold_bp = tb ∧ st.estimate_ani_ci = ci ∧ st.ani_confidence = conf ∧
    check_compatibility_and_downsample mh1 mh2 ia none (some (cs.getD (max mh1.scaled mh2.scaled))) =
      .ok (st.mh1_cmp, st.mh2_cmp, st.ksize, st.moltype) := by
  unfold FracMinHashComparison.build at h
  split at h
  · simp at h
  · rename_i d1 d2 k m hc
    simp only [Except.ok.injEq] at h
    subst h
    exact ⟨rfl, rfl, rfl, rfl, rfl, rfl, rfl, hc⟩

lemma kind_check_false {mh1 mh2 : MinHash}
    (hmix : (mh1.num ≠ 0 ∧ mh1.scaled = 0 ∧ mh2.num = 0 ∧ mh2.scaled ≠ 0) ∨
            (mh1.num = 0 ∧ mh1.scaled ≠ 0 ∧ mh2.num ≠ 0 ∧ mh2.scaled = 0)) :
    ((mh1.num != 0 && mh2.num != 0) || (mh1.scaled != 0 && mh2.scaled != 0)) = false := by
  rcases hmix with ⟨h1, h2, h3, h4⟩ | ⟨h1, h2, h3, h4⟩ <;> simp [h1, h2, h3, h4]

lemma check_mixed_error {mh1 mh2 : MinHash}
    (hmix : (mh1.num ≠ 0 ∧ mh1.scaled = 0 ∧ mh2.num = 0 ∧ mh2.scaled ≠ 0) ∨
            (mh1.num = 0 ∧ mh1.scaled ≠ 0 ∧ mh2.num ≠ 0 ∧ mh2.scaled = 0))
    (ia : Bool) (cn cs : Option Nat) :
    check_compatibility_and_downsample mh1 mh2 ia cn cs =
      .error (.typeError "Error: Both sketches must be num or scaled.") := by
  unfold check_compatibility_and_downsample
  simp only [kind_check_false hmix, Bool.false_eq_true, if_false]

lemma npMean_pair (a b : Rat) : npMean [a, b] = (a + b) / 2 := by
  unfold npMean
  norm_num

/-- C1: with no resolution override at construction, the fixed-size variant
resolves `cmp_num = min(mh1.num, mh2.num)` and the fixed-rate variant
resolves `cmp_scaled = max(mh1.scaled, mh2.scaled)` — the coarser of the two
originals in each case. -/
theorem spec_c1_default_resolution (mh1 mh2 : MinHash) (ia : Bool) :
    (∀ st : NumMinHashComparison, NumMinHashComparison.build mh1 mh2 ia none = .ok st →
      st.cmp_num = min mh1.num mh2.num) ∧
    (∀ (tb : Nat) (ci : Bool) (conf : Rat) (st : FracMinHashComparison),
      FracMinHashComparison.build mh1 mh2 ia none tb ci conf = .ok st →
      st.cmp_scaled = max mh1.scaled mh2.scaled) := by
  constructor
  · intro st h
    exact (numBuild_ok h).2.2.2.1
  · intro tb ci conf st h
    exact (fracBuild_ok h).2.2.2.1

/-- Witness for C1 at concrete sketches: sample counts 500 and 1000 resolve
to 500; rates 10 and 20 resolve to 20. -/
theorem spec_c1_default_resolution_witness :
    numSt.cmp_num = min mhN500.num mhN1000.num ∧
    fracSt.cmp_scaled = max mhS10.scaled mhS20.scaled :=
  ⟨(spec_c1_default_resolution mhN500 mhN1000 false).1 numSt rfl,
   (spec_c1_default_resolution mhS10 mhS20 false).2 0 false 1 fracSt rfl⟩

/-- C3: constructing either comparison variant from a mixed pair (one
fixed-size sketch, one fixed-rate sketch) fails at construction with the
kind-mismatch `TypeError`, so no comparison object is produced. -/
theorem spec_c3_mixed_kind_error (mh1 mh2 : MinHash) (ia : Bool) (cn cs : Option Nat)
    (tb : Nat) (ci : Bool) (conf : Rat)
    (hmix : (mh1.num ≠ 0 ∧ mh1.scaled = 0 ∧ mh2.num = 0 ∧ mh2.scaled ≠ 0) ∨
            (mh1.num = 0 ∧ mh1.scaled ≠ 0 ∧ mh2.num ≠ 0 ∧ mh2.scaled = 0)) :
    NumMinHashComparison.build mh1 mh2 ia cn =
      .error (.typeError "Error: Both sketches must be num or scaled.") ∧
    FracMinHashComparison.build mh1 mh2 ia cs tb ci conf =
      .error (.typeError "Error: Both sketches must be num or scaled.") := by
  constructor
  · unfold NumMinHashComparison.build
    rw [check_mixed_error hmix]
  · unfold FracMinHashComparison.build
    rw [check_mixed_error hmix]

/-- Witness for C3: a fixed-size sketch (n = 500) against a fixed-rate
sketch (rate 10) is rejected by both variants. -/
theorem spec_c3_mixed_kind_error_witness :
    NumMinHashComparison.build mhN500 mhS10 false none =
      .error (.typeError "Error: Both sketches must be num or scaled.") ∧
    FracMinHashComparison.build mhN500 mhS10 false none 0 false 1 =
      .error (.typeError "Error: Both sketches must be num or scaled.") :=
  spec_c3_mixed_kind_error mhN500 mhS10 false none none 0 false 1 (Or.inl (by decide))

/-- C4: supplying neither a comparison sample count nor a comparison rate to
the normalization operation fails immediately with the configuration
`ValueError`; no normalized pair is produced. -/
theorem spec_c4_missing_resolution_error (mh1 mh2 : MinHash) (ia : Bool) :
    downsample_and_handle_ignore_abundance mh1 mh2 ia none none =
      .error (.valueError "Error: must pass in a comparison scaled or num value.") := rfl

/-- C9: `avg_containment` is the arithmetic mean of the two directional
containments, and `avg_containment_ani` is the arithmetic mean of the two
directional containment-ANI point estimates (`.ani` only — the CI bounds
do not enter the average). -/
theorem spec_c9_avg_containment_mean (c : FracMinHashComparison) :
    c.avg_containment = (c.mh1_containment + c.mh2_containment) / 2 ∧
    c.avg_containment_ani = (c.mh1_containment_ani.ani + c.mh2_containment_ani.ani) / 2 :=
  ⟨npMean_pair _ _, npMean_pair _ _⟩

/-- C10: the kind-compatibility check precedes flattening and downsampling:
on a mixed pair the normalizer returns the kind-mismatch `TypeError` for
every abundance policy and every resolution request — including requests
that are themselves invalid (such as no resolution at all, which would
otherwise raise the configuration `ValueError`) — so the normalized pair is
never produced. -/
theorem spec_c10_kind_check_runs_first (mh1 mh2 : MinHash) (ia : Bool) (cn cs : Option Nat)
    (hmix : (mh1.num ≠ 0 ∧ mh1.scaled = 0 ∧ mh2.num = 0 ∧ mh2.scaled ≠ 0) ∨
            (mh1.num = 0 ∧ mh1.scaled ≠ 0 ∧ mh2.num ≠ 0 ∧ mh2.scaled = 0)) :
    check_compatibility_and_downsample mh1 mh2 ia cn cs =
      .error (.typeError "Error: Both sketches must be num or scaled.") :=
  check_mixed_error hmix ia cn cs

/-- Witness for C10: a mixed pair with no resolution request at all still
reports the kind mismatch, not the missing-resolution error. -/
theorem spec_c10_kind_check_runs_first_witness :
    check_compatibility_and_downsample mhN500 mhS10 true none none =
      .error (.typeError "Error: Both sketches must be num or scaled.") :=
  spec_c10_kind_check_runs_first mhN500 mhS10 true none none (Or.inl (by decide))

lemma jaccard_nonneg (a b : MinHash) : 0 ≤ a.jaccard b := by
  unfold MinHash.jaccard
  dsimp only
  split
  · exact le_refl 0
  · positivity

lemma jaccard_le_one (a b : MinHash) : a.jaccard b ≤ 1 := by
  unfold MinHash.jaccard
  dsimp only
  split
  · exact zero_le_one
  · rename_i h
    rw [div_le_one (by exact_mod_cast Nat.pos_of_ne_zero h)]
    exact_mod_cast le_trans (List.length_filter_le _ _) (Nat.le_add_right _ _)

lemma contained_by_nonneg (a b : MinHash) : 0 ≤ a.contained_by b := by
  unfold MinHash.contained_by
  split
  · exact le_refl 0
  · positivity

lemma contained_by_le_one (a b : MinHash) : a.contained_by b ≤ 1 := by
  unfold MinHash.contained_by
  split
  · exact zero_le_one
  · rename_i h
    rw [div_le_one (by exact_mod_cast Nat.pos_of_ne_zero h)]
    exact_mod_cast List.length_filter_le _ _

lemma angular_error_left {a : MinHash} (b : MinHash) (ha : a.track_abundance = false) :
    a.angular_similarity b =
      .error (.unsupported "Error: Angular (cosine) similarity requires both sketches to track hash abundance.") := by
  unfold MinHash.angular_similarity
  rw [ha]
  simp

lemma intersect_mh_track (c : FracMinHashComparison) :
    c.intersect_mh.track_abundance = false := by
  unfold FracMinHashComparison.intersect_mh MinHash.intersection
  exact flatten_track c.mh1_cmp

lemma numBuild_true_flattened {mh1 mh2 : MinHash} {cn : Option Nat} {st : NumMinHashComparison}
    (h : NumMinHashComparison.build mh1 mh2 true cn = .ok st) :
    st.mh1_cmp.track_abundance = false ∧ st.mh2_cmp.track_abundance = false := by
  obtain ⟨-, -, -, -, hc⟩ := numBuild_ok h
  obtain ⟨hd, -, -, -⟩ := check_ok hc
  obtain ⟨h1, h2⟩ := dsh_num_ok hd
  exact ⟨(downsampleNum_ok_track h1).trans (flatten_track mh1),
         (downsampleNum_ok_track h2).trans (flatten_track mh2)⟩

lemma fracBuild_true_flattened {mh1 mh2 : MinHash} {cs : Option Nat} {tb : Nat} {ci : Bool}
    {conf : Rat} {st : FracMinHashComparison}
    (h : FracMinHashComparison.build mh1 mh2 true cs tb ci conf = .ok st) :
    st.mh1_cmp.track_abundance = false ∧ st.mh2_cmp.track_abundance = false := by
  obtain ⟨-, -, -, -, -, -, -, hc⟩ := fracBuild_ok h
  obtain ⟨hd, -, -, -⟩ := check_ok hc
  obtain ⟨h1, h2⟩ := dsh_scaled_ok hd
  exact ⟨(downsampleScaled_ok_track h1).trans (flatten_track mh1),
         (downsampleScaled_ok_track h2).trans (flatten_track mh2)⟩

/-- C5: any comparison built with `ignore_abundance = true` holds two
abundance-stripped normalized sketches, whatever the originals tracked;
with `ignore_abundance = false` each normalized sketch is the original
downsampled directly, with no flattening step. -/
theorem spec_c5_ignore_abundance_policy (mh1 mh2 : MinHash) :
    (∀ (cn : Option Nat) (st : NumMinHashComparison),
      NumMinHashComparison.build mh1 mh2 true cn = .ok st →
      st.mh1_cmp.track_abundance = false ∧ st.mh2_cmp.track_abundance = false) ∧
    (∀ (cs : Option Nat) (tb : Nat) (ci : Bool) (conf : Rat) (st : FracMinHashComparison),
      FracMinHashComparison.build mh1 mh2 true cs tb ci conf = .ok st →
      st.mh1_cmp.track_abundance = false ∧ st.mh2_cmp.track_abundance = false) ∧
    (∀ (cn : Option Nat) (st : NumMinHashComparison),
      NumMinHashComparison.build mh1 mh2 false cn = .ok st →
      mh1.downsampleNum st.cmp_num = .ok st.mh1_cmp ∧
      mh2.downsampleNum st.cmp_num = .ok st.mh2_cmp) ∧
    (∀ (cs : Option Nat) (tb : Nat) (ci : Bool) (conf : Rat) (st : FracMinHashComparison),
      FracMinHashComparison.build mh1 mh2 false cs tb ci conf = .ok st →
      mh1.downsampleScaled st.cmp_scaled = .ok st.mh1_cmp ∧
      mh2.downsampleScaled st.cmp_scaled = .ok st.mh2_cmp) := by
  refine ⟨?_, ?_, ?_, ?_⟩
  · intro cn st h
    exact numBuild_true_flattened h
  · intro cs tb ci conf st h
    exact fracBuild_true_flattened h
  · intro cn st h
    obtain ⟨-, -, -, hn, hc⟩ := numBuild_ok h
    obtain ⟨hd, -, -, -⟩ := check_ok hc
    obtain ⟨h1, h2⟩ := dsh_num_ok hd
    rw [hn]
    exact ⟨h1, h2⟩
  · intro cs tb ci conf st h
    obtain ⟨-, -, -, hs, -, -, -, hc⟩ := fracBuild_ok h
    obtain ⟨hd, -, -, -⟩ := check_ok hc
    obtain ⟨h1, h2⟩ := dsh_scaled_ok hd
    rw [hs]
    exact ⟨h1, h2⟩

/-- Witness for C5 at concrete comparisons: with abundances ignored both
normalized sketches are stripped (`mhN1000` and `mhS20` do track
abundance); with abundances kept the normalized sketches are the plain
downsampled originals. -/
theorem spec_c5_ignore_abundance_policy_witness :
    (numStI.mh1_cmp.track_abundance = false ∧ numStI.mh2_cmp.track_abundance = false) ∧
    (fracStI.mh1_cmp.track_abundance = false ∧ fracStI.mh2_cmp.track_abundance = false) ∧
    (mhS20.downsampleScaled fracSt.cmp_scaled = .ok fracSt.mh2_cmp) ∧
    (mhN1000.downsampleNum numSt.cmp_num = .ok numSt.mh2_cmp) :=
  ⟨(spec_c5_ignore_abundance_policy mhN500 mhN1000).1 none numStI rfl,
   (spec_c5_ignore_abundance_policy mhS10 mhS20).2.1 none 0 false 1 fracStI rfl,
   ((spec_c5_ignore_abundance_policy mhS10 mhS20).2.2.2 none 0 false 1 fracSt rfl).2,
   ((spec_c5_ignore_abundance_policy mhN500 mhN1000).2.2.1 none numSt rfl).2⟩

/-- C6: on a comparison built with `ignore_abundance = true`, accessing the
angular or cosine similarity fails with the abundance usage error, on the
fixed-rate and the fixed-size variant alike; the failure is local to those
two properties: on the same comparison the intersection is a well-defined
abundance-less sketch and the Jaccard and the directional containments are
well-defined values in [0, 1]. -/
theorem spec_c6_angular_error_is_local (mh1 mh2 nh1 nh2 : MinHash) (cs cn : Option Nat)
    (tb : Nat) (ci : Bool) (conf : Rat)
    (st : FracMinHashComparison) (nst : NumMinHashComparison)
    (hf : FracMinHashComparison.build mh1 mh2 true cs tb ci conf = .ok st)
    (hn : NumMinHashComparison.build nh1 nh2 true cn = .ok nst) :
    st.angular_similarity =
      .error (.unsupported "Error: Angular (cosine) similarity requires both sketches to track hash abundance.") ∧
    st.cosine_similarity =
      .error (.unsupported "Error: Angular (cosine) similarity requires both sketches to track hash abundance.") ∧
    nst.angular_similarity =
      .error (.unsupported "Error: Angular (cosine) similarity requires both sketches to track hash abundance.") ∧
    nst.cosine_similarity =
      .error (.unsupported "Error: Angular (cosine) similarity requires both sketches to track hash abundance.") ∧
    st.intersect_mh.track_abundance = false ∧
    0 ≤ st.jaccard ∧ st.jaccard ≤ 1 ∧
    0 ≤ st.mh1_containment ∧ st.mh1_containment ≤ 1 ∧
    0 ≤ st.mh2_containment ∧ st.mh2_containment ≤ 1 := by
  have hfa := (fracBuild_true_flattened hf).1
  have hna := (numBuild_true_flattened hn).1
  refine ⟨angular_error_left st.mh2_cmp hfa, angular_error_left st.mh2_cmp hfa,
          angular_error_left nst.mh2_cmp hna, angular_error_left nst.mh2_cmp hna,
          intersect_mh_track st,
          jaccard_nonneg _ _, jaccard_le_one _ _,
          contained_by_nonneg _ _, contained_by_le_one _ _,
          contained_by_nonneg _ _, contained_by_le_one _ _⟩

/-- Witness for C6 at the concrete abundance-ignoring comparisons: both
original pairs contain an abundance-tracking sketch, the similarity
properties fail, and the Jaccard bound applies. -/
theorem spec_c6_angular_error_is_local_witness :
    fracStI.angular_similarity =
      .error (.unsupported "Error: Angular (cosine) similarity requires both sketches to track hash abundance.") ∧
    numStI.cosine_similarity =
      .error (.unsupported "Error: Angular (cosine) similarity requires both sketches to track hash abundance.") ∧
    fracStI.jaccard ≤ 1 :=
  ⟨(spec_c6_angular_error_is_local mhS10 mhS20 mhN500 mhN1000 none none 0 false 1
      fracStI numStI rfl rfl).1,
   (spec_c6_angular_error_is_local mhS10 mhS20 mhN500 mhN1000 none none 0 false 1
      fracStI numStI rfl rfl).2.2.2.1,
   (spec_c6_angular_error_is_local mhS10 mhS20 mhN500 mhN1000 none none 0 false 1
      fracStI numStI rfl rfl).2.2.2.2.2.2.1⟩

/-- C8: the post-normalization compatibility check is evaluated on the two
downsampled sketches: once the kind check has passed and downsampling has
produced `(c1, c2)`, the normalizer fails with the incompatibility
`TypeError` exactly when `c1.is_compatible c2` is false, and otherwise
succeeds exposing `ksize` and `moltype` copied from sketch 1. -/
theorem spec_c8_post_downsample_compatibility (mh1 mh2 : MinHash) (ia : Bool)
    (cn cs : Option Nat) (c1 c2 : MinHash)
    (hkind : ((mh1.num != 0 && mh2.num != 0) || (mh1.scaled != 0 && mh2.scaled != 0)) = true)
    (hds : downsample_and_handle_ignore_abundance mh1 mh2 ia cn cs = .ok (c1, c2)) :
    (c1.is_compatible c2 = false →
      check_compatibility_and_downsample mh1 mh2 ia cn cs =
        .error (.typeError "Error: Cannot compare incompatible sketches.")) ∧
    (c1.is_compatible c2 = true →
      check_compatibility_and_downsample mh1 mh2 ia cn cs =
        .ok (c1, c2, mh1.ksize, mh1.moltype)) := by
  constructor
  · intro hcomp
    simp [check_compatibility_and_downsample, hkind, hds, hcomp]
  · intro hcomp
    simp [check_compatibility_and_downsample, hkind, hds, hcomp]

/-- Witness for C8: sketches with k-mer sizes 21 and 31 (same rate) pass
the kind check and downsampling, then fail the compatibility check; with
matching k-mer sizes the normalizer succeeds and copies `ksize = 21`,
`moltype = "DNA"` from sketch 1. -/
theorem spec_c8_post_downsample_compatibility_witness :
    check_compatibility_and_downsample mhS10 mhS10k31 false none (some 10) =
      .error (.typeError "Error: Cannot compare incompatible sketches.") ∧
    check_compatibility_and_downsample mhS10 mhS20 false none (some 20) =
      .ok (⟨0, 20, 21, "DNA", false, [(2, 1), (4, 1), (6, 1)]⟩,
           ⟨0, 20, 21, "DNA", true, [(2, 3), (6, 2)]⟩, 21, "DNA") :=
  ⟨(spec_c8_post_downsample_compatibility mhS10 mhS10k31 false none (some 10)
      ⟨0, 10, 21, "DNA", false, [(2, 1), (4, 1), (6, 1)]⟩
      ⟨0, 10, 31, "DNA", false, [(2, 1)]⟩
      (by decide) rfl).1 rfl,
   (spec_c8_post_downsample_compatibility mhS10 mhS20 false none (some 20)
      ⟨0, 20, 21, "DNA", false, [(2, 1), (4, 1), (6, 1)]⟩
      ⟨0, 20, 21, "DNA", true, [(2, 3), (6, 2)]⟩
      (by decide) rfl).2 rfl⟩

lemma nodup_subset_length_le {l r : List Nat} (hnd : l.Nodup) (hsub : ∀ a ∈ l, a ∈ r) :
    l.length ≤ r.length := by
  induction l generalizing r with
  | nil => simp
  | cons a t ih =>
    have hat : a ∉ t := (List.nodup_cons.mp hnd).1
    have htnd : t.Nodup := (List.nodup_cons.mp hnd).2
    have har : a ∈ r := hsub a (List.mem_cons_self a t)
    have hsub2 : ∀ b ∈ t, b ∈ r.erase a := by
      intro b hb
      refine (List.mem_erase_of_ne ?_).mpr (hsub b (List.mem_cons_of_mem _ hb))
      intro hba
      exact hat (hba ▸ hb)
    have hlen : (r.erase a).length = r.length - 1 := List.length_erase_of_mem har
    have hpos : 0 < r.length := List.length_pos_of_mem har
    have := ih htnd hsub2
    simp only [List.length_cons]
    omega

lemma intersect_le_left (c : FracMinHashComparison) :
    c.intersect_mh.hashes.length ≤ c.mh1_cmp.hashes.length := by
  unfold FracMinHashComparison.intersect_mh MinHash.intersection
  exact le_trans (List.length_filter_le _ _) (flatten_hashes_length c.mh1_cmp).le

lemma intersect_le_right (c : FracMinHashComparison) (hnd : c.mh1_cmp.keys.Nodup) :
    c.intersect_mh.hashes.length ≤ c.mh2_cmp.hashes.length := by
  have hsubl : c.intersect_mh.hashes.Sublist c.mh1_cmp.flatten.hashes :=
    List.filter_sublist _
  have hknd : (c.intersect_mh.hashes.map Prod.fst).Nodup := by
    refine List.Nodup.sublist (List.Sublist.map Prod.fst hsubl) ?_
    rw [show c.mh1_cmp.flatten.hashes.map Prod.fst = c.mh1_cmp.flatten.keys from rfl,
        flatten_keys]
    exact hnd
  have hmem : ∀ k ∈ c.intersect_mh.hashes.map Prod.fst, k ∈ c.mh2_cmp.flatten.keys := by
    intro k hk
    obtain ⟨p, hp, hpk⟩ := List.mem_map.mp hk
    have := List.of_mem_filter hp
    subst hpk
    exact List.mem_of_elem_eq_true this
  have hle := nodup_subset_length_le hknd hmem
  rw [List.length_map] at hle
  calc c.intersect_mh.hashes.length ≤ c.mh2_cmp.flatten.keys.length := hle
    _ = c.mh2_cmp.flatten.hashes.length := List.length_map _ _
    _ = c.mh2_cmp.hashes.length := flatten_hashes_length _

/-- C7: `intersect_bp` is the intersection size times the resolved rate,
the threshold predicate holds exactly when `intersect_bp` reaches
`threshold_bp`, a zero threshold always passes, and a threshold above the
largest possible `intersect_bp` (bounded via the smaller normalized sketch)
always fails.  The hypothesis is the dict well-formedness of the normalized
sketch: distinct hash keys. -/
theorem spec_c7_threshold_predicate (c : FracMinHashComparison)
    (hnd : c.mh1_cmp.keys.Nodup) :
    c.intersect_bp = c.intersect_mh.hashes.length * c.cmp_scaled ∧
    (c.pass_threshold = true ↔ c.threshold_bp ≤ c.intersect_bp) ∧
    (c.threshold_bp = 0 → c.pass_threshold = true) ∧
    (min c.mh1_cmp.hashes.length c.mh2_cmp.hashes.length * c.cmp_scaled < c.threshold_bp →
      c.pass_threshold = false) := by
  refine ⟨rfl, ?_, ?_, ?_⟩
  · unfold FracMinHashComparison.pass_threshold
    exact decide_eq_true_iff
  · intro h0
    unfold FracMinHashComparison.pass_threshold
    rw [h0]
    simp
  · intro hlt
    have hbp : c.intersect_bp ≤
        min c.mh1_cmp.hashes.length c.mh2_cmp.hashes.length * c.cmp_scaled := by
      unfold FracMinHashComparison.intersect_bp
      exact Nat.mul_le_mul_right _
        (Nat.le_min.mpr ⟨intersect_le_left c, intersect_le_right c hnd⟩)
    unfold FracMinHashComparison.pass_threshold
    simp only [decide_eq_false_iff_not]
    omega

/-- Witness for C7: the zero-threshold comparison passes; the comparison
with threshold 1000 bp (above the 40 bp upper bound) fails. -/
theorem spec_c7_threshold_predicate_witness :
    fracSt.pass_threshold = true ∧ fracStT.pass_threshold = false :=
  ⟨(spec_c7_threshold_predicate fracSt (by decide)).2.2.1 rfl,
   (spec_c7_threshold_predicate fracStT (by decide)).2.2.2 (by decide)⟩

lemma lookupD_map_keyfun (l : List (Nat × Nat)) (g : Nat → Nat) (h d : Nat) :
    lookupD (l.map (fun p => (p.1, g p.1))) h d =
      if h ∈ l.map Prod.fst then g h else d := by
  induction l with
  | nil => simp [lookupD]
  | cons p t ih =>
    simp only [List.map_cons, lookupD, List.mem_cons]
    by_cases hp : p.1 = h
    · simp [hp]
    · have hne : h ≠ p.1 := fun hh => hp hh.symm
      rw [if_neg (by simp [beq_iff_eq, hp]), ih]
      by_cases hm : h ∈ List.map Prod.fst t
      · rw [if_pos hm, if_pos (Or.inr hm)]
      · rw [if_neg hm, if_neg (fun hor => hor.elim (fun hh => hne hh) (fun hh => hm hh))]

lemma lookupD_not_mem {l : List (Nat × Nat)} {h : Nat} (hn : h ∉ l.map Prod.fst) (d : Nat) :
    lookupD l h d = d := by
  induction l with
  | nil => rfl
  | cons p t ih =>
    simp only [List.map_cons, List.mem_cons, not_or] at hn
    simp only [lookupD]
    rw [if_neg]
    · exact ih hn.2
    · simp only [beq_iff_eq]
      intro hh
      exact hn.1 hh.symm

/-- C2 counterexample: on the concrete comparison `fracSt` (intersection
hashes {2, 6}), passing a source sketch that tracks abundance but has an
empty hash mapping — together with a non-empty explicit mapping — returns
the plain abundance-less intersection sketch, not an abundance-tagged
sketch assigning abundance 1 to the intersection hashes absent from the
chosen source, as the claim requires. -/
theorem spec_c2_weighted_intersection_counterexample :
    emptyAbundMh.track_abundance = true ∧
    fracSt.intersect_mh.hashes ≠ [] ∧
    fracSt.weighted_intersection (some emptyAbundMh) [(2, 7)] = fracSt.intersect_mh ∧
    (fracSt.weighted_intersection (some emptyAbundMh) [(2, 7)]).track_abundance = false :=
  ⟨rfl, by decide, rfl, rfl⟩

/-- C2 amended: `weighted_intersection` chooses the source sketch mapping
when the sketch is given and tracks abundance (precedence over the explicit
mapping), else the explicit mapping; when the chosen mapping is non-empty
the result is an abundance-tracking sketch over exactly the intersection
hashes in which every hash found in the chosen mapping gets its mapped
abundance and every hash absent from it gets abundance 1 (never 0, never a
failure); when the chosen mapping is empty — in particular when neither
source is given — the plain abundance-less intersection sketch is
returned. -/
theorem spec_c2_weighted_intersection_amended (c : FracMinHashComparison)
    (from_mh : Option MinHash) (from_abundD : List (Nat × Nat)) :
    (chosenAbundD from_mh from_abundD = [] →
      c.weighted_intersection from_mh from_abundD = c.intersect_mh ∧
      (c.weighted_intersection from_mh from_abundD).track_abundance = false) ∧
    (chosenAbundD from_mh from_abundD ≠ [] →
      (c.weighted_intersection from_mh from_abundD).track_abundance = true ∧
      (c.weighted_intersection from_mh from_abundD).keys = c.intersect_mh.keys ∧
      (∀ h ∈ c.intersect_mh.keys,
        lookupD (c.weighted_intersection from_mh from_abundD).hashes h 0 =
          lookupD (chosenAbundD from_mh from_abundD) h 1) ∧
      (∀ h ∈ c.intersect_mh.keys,
        h ∉ (chosenAbundD from_mh from_abundD).map Prod.fst →
        lookupD (c.weighted_intersection from_mh from_abundD).hashes h 0 = 1)) := by
  constructor
  · intro hemp
    unfold FracMinHashComparison.weighted_intersection
    rw [hemp]
    exact ⟨rfl, intersect_mh_track c⟩
  · intro hne
    have hiE : (chosenAbundD from_mh from_abundD).isEmpty = false := by
      cases hh : chosenAbundD from_mh from_abundD
      · exact absurd hh hne
      · rfl
    unfold FracMinHashComparison.weighted_intersection
    rw [hiE]
    simp only [Bool.false_eq_true, if_false]
    refine ⟨rfl, ?_, ?_, ?_⟩
    · unfold MinHash.keys MinHash.set_abundances
      simp [List.map_map, Function.comp]
    · intro h hmem
      have hmem2 : h ∈ c.intersect_mh.hashes.map Prod.fst := hmem
      have hl := lookupD_map_keyfun c.intersect_mh.hashes
        (fun k => lookupD (chosenAbundD from_mh from_abundD) k 1) h 0
      exact hl.trans (if_pos hmem2)
    · intro h hmem habs
      have hmem2 : h ∈ c.intersect_mh.hashes.map Prod.fst := hmem
      have hl := lookupD_map_keyfun c.intersect_mh.hashes
        (fun k => lookupD (chosenAbundD from_mh from_abundD) k 1) h 0
      exact hl.trans ((if_pos hmem2).trans (lookupD_not_mem habs 1))

/-- Witness for C2 (amended) at the concrete comparison `fracSt` with an
explicit mapping `{2 ↦ 7}` and no source sketch: the result tracks
abundance, intersection hash 2 gets abundance 7 and intersection hash 6
(absent from the mapping) gets abundance 1. -/
theorem spec_c2_weighted_intersection_amended_witness :
    (fracSt.weighted_intersection none [(2, 7)]).track_abundance = true ∧
    lookupD (fracSt.weighted_intersection none [(2, 7)]).hashes 2 0 = 7 ∧
    lookupD (fracSt.weighted_intersection none [(2, 7)]).hashes 6 0 = 1 := by
  have H := (spec_c2_weighted_intersection_amended fracSt none [(2, 7)]).2 (by decide)
  exact ⟨H.1, (H.2.2.1 2 (by decide)).trans (by decide), H.2.2.2 6 (by decide) (by decide)⟩
